import Mathlib

/-!
Shallow embedding of the research-orchestration core of the
Autonomous-Deep-Research-Agent repository, together with proofs about it.

Conventions used throughout:
* Python floats (quality scores, retry delays) are modelled as exact
  rationals `ℚ`; all score arithmetic in the source is simple enough that
  this is value-faithful.
* Python `datetime` values are modelled as abstract integer timestamps.
* The LLM calls are external inputs: the critic's structured
  `QualityAssessment` and each provider's network response are parameters
  of the embedded functions, exactly as the source treats them as opaque
  data it post-processes.
* A Python function that can raise is modelled with `Except`; a function
  that catches all exceptions is total.
-/

namespace ResearchAgent

/-- Embedding of the `Source` dataclass in `src/state.py`: one retrieved
document with quality metadata.  Scores default to `0.0` as in the source. -/
structure Source where
  url : String
  title : String
  content : String
  query : String
  provider : String
  quality_score : ℚ := 0
  relevance_score : ℚ := 0
  retrieved_at : String := ""
deriving DecidableEq

/-- Embedding of the `QualityAssessment` pydantic model in
`src/agents/critic.py`: the structured output produced by the evaluator
LLM, an opaque input from the orchestration core's point of view. -/
structure QualityAssessment where
  overall_score : ℚ
  completeness : ℚ
  source_diversity : ℚ
  fact_consistency : ℚ
  strengths : List String
  gaps : List String
  suggestions : List String
  sufficient : Bool
deriving DecidableEq

/-- Embedding of the `QualityReport` dataclass in `src/state.py`. -/
structure QualityReport where
  overall_score : ℚ := 0
  completeness : ℚ := 0
  source_diversity : ℚ := 0
  fact_consistency : ℚ := 0
  suggestions : List String := []
  needs_refinement : Bool := false
deriving DecidableEq

/-- Default `QualityConfig.min_quality_score` in `src/config.py` (7.0). -/
def min_quality_score_default : ℚ := 7

/-- Default `QualityConfig.max_refinement_iterations` in `src/config.py`. -/
def max_refinement_iterations_default : Nat := 2

/-- Default `SearchConfig.retry_attempts` in `src/config.py`. -/
def retry_attempts_default : Nat := 3

/-- Default `SearchConfig.retry_delay` in `src/config.py` (1.0 s). -/
def retry_delay_default : ℚ := 1

/-- Default `SearchConfig.max_results_per_query` in `src/config.py`. -/
def max_results_per_query_default : Nat := 5

/-- Default `CacheConfig.ttl_hours` in `src/config.py`. -/
def ttl_hours_default : Int := 24

/-- The refinement decision of `CriticAgent.run` in `src/agents/critic.py`:

    needs_refinement = (
        not assessment.sufficient and
        assessment.overall_score < config.quality.min_quality_score and
        revision < max_revisions
    )

`revision` plays the spec's `iteration` role and `max_revisions` the spec's
`max_iterations`. -/
def needsRefinement (a : QualityAssessment) (min_quality_score : ℚ)
    (revision max_revisions : Nat) : Bool :=
  !a.sufficient
    && decide (a.overall_score < min_quality_score)
    && decide (revision < max_revisions)

/-- The slice of the state update returned by `CriticAgent.run`. -/
structure CriticOutput where
  quality_report : QualityReport
  status : String
  revision_number : Nat
deriving DecidableEq

/-- Embedding of the decision-and-report part of `CriticAgent.run`
(`src/agents/critic.py`, lines 82-114).  The LLM assessment `a` is an
input; the function builds the stored `QualityReport`, the `next_status`
routing value and the updated `revision_number` exactly as the source
does. -/
def criticRun (a : QualityAssessment) (min_quality_score : ℚ)
    (revision max_revisions : Nat) : CriticOutput :=
  let nr := needsRefinement a min_quality_score revision max_revisions
  { quality_report :=
      { overall_score := a.overall_score
        completeness := a.completeness
        source_diversity := a.source_diversity
        fact_consistency := a.fact_consistency
        suggestions := if nr then a.suggestions else []
        needs_refinement := nr }
    status := if nr then "planning" else "writing"
    revision_number := revision + (if nr then 1 else 0) }

/-- Embedding of `should_continue_after_critic` in `src/graph.py`: the
conditional edge that routes to the planner (spec decision CONTINUE) or to
the writer (spec decision ACCEPT). -/
def shouldContinueAfterCritic (qr : QualityReport) : String :=
  if qr.needs_refinement then "planner" else "writer"

/-- The evolution of `revision_number` over a whole run: each evaluation
pass either routes CONTINUE (incrementing the counter, as in
`CriticAgent.run`) and loops, or routes ACCEPT and stops.  The list holds
the successive LLM assessments. -/
def runRevision (min_quality_score : ℚ) (max_revisions : Nat) :
    List QualityAssessment → Nat → Nat
  | [], revision => revision
  | a :: rest, revision =>
    if needsRefinement a min_quality_score revision max_revisions then
      runRevision min_quality_score max_revisions rest (revision + 1)
    else
      revision

/-- Classification of a provider-call outcome.  In the source every
failure is a raised exception caught by the bare `except Exception` in
`ResearcherAgent._search_query`; the tag distinguishes the error classes
the spec talks about (the code itself never inspects them). -/
inductive SearchError where
  | malformedInput
  | providerError (msg : String)
deriving DecidableEq

/-- Whether a provider-call outcome is a raised exception. -/
def isErrorResponse (r : Except SearchError (List Source)) : Bool :=
  match r with
  | .error _ => true
  | .ok _ => false

/-- Observable behaviour of one `_search_query` call: the returned source
list, the number of provider calls made, and the backoff delays awaited
(in seconds, in order). -/
structure FetchResult where
  results : List Source
  attempts : Nat
  sleeps : List ℚ
deriving DecidableEq

/-- The retry loop of `ResearcherAgent._search_query`
(`src/agents/researcher.py`, lines 45-63):

    for attempt in range(config.search.retry_attempts):
        try:
            results = await provider.search(...)
            return results
        except Exception as e:
            if attempt < config.search.retry_attempts - 1:
                await asyncio.sleep(config.search.retry_delay * (attempt + 1))
            else:
                return []
    return []

`oracle i` is the outcome of the provider call on the 0-based attempt `i`;
`remaining` is the number of loop iterations left. -/
def searchQueryGo (oracle : Nat → Except SearchError (List Source))
    (retry_delay : ℚ) : Nat → Nat → FetchResult
  | _, 0 => { results := [], attempts := 0, sleeps := [] }
  | attempt, remaining + 1 =>
    match oracle attempt with
    | .ok r => { results := r, attempts := 1, sleeps := [] }
    | .error _ =>
      if remaining > 0 then
        let rest := searchQueryGo oracle retry_delay (attempt + 1) remaining
        { results := rest.results
          attempts := rest.attempts + 1
          sleeps := retry_delay * ((attempt : ℚ) + 1) :: rest.sleeps }
      else
        { results := [], attempts := 1, sleeps := [] }

/-- Embedding of `ResearcherAgent._search_query`: run the retry loop from
attempt 0 with `retry_attempts` iterations available. -/
def searchQuery (oracle : Nat → Except SearchError (List Source))
    (retry_delay : ℚ) (retry_attempts : Nat) : FetchResult :=
  searchQueryGo oracle retry_delay 0 retry_attempts

/-- A provider is identified by its `name` attribute in the source. -/
abbrev ProviderId := String

/-- Embedding of `ResearcherAgent._execute_parallel_searches`
(`src/agents/researcher.py`, lines 65-89): one task per (query, provider)
pair in nested loop order; `asyncio.gather` returns the per-task result
lists in task-creation order (the semaphore only bounds concurrency, it
does not change any value), and the lists are flattened by `extend` in
that order. -/
def executeParallelSearches (providers : List ProviderId)
    (oracle : String → ProviderId → Nat → Except SearchError (List Source))
    (retry_delay : ℚ) (retry_attempts : Nat) (queries : List String) :
    List Source :=
  let tasks := queries.flatMap (fun q => providers.map (fun p => (q, p)))
  let results := tasks.map
    (fun qp => (searchQuery (oracle qp.1 qp.2) retry_delay retry_attempts).results)
  results.foldl (fun acc r => acc ++ r) []

/-- Python whitespace, as recognised by `str.strip()` / `str.split()` for
the character set appearing in this repository. -/
def isPySpace (c : Char) : Bool :=
  c = ' ' || c = '\t' || c = '\n' || c = '\x0b' || c = '\x0c' || c = '\r'

/-- Python `str.lower()` (ASCII-faithful; the repository's queries and
provider names are ASCII). -/
def pyLower (s : String) : String :=
  String.mk (s.toList.map Char.toLower)

/-- Python `str.strip()`: drop leading and trailing whitespace. -/
def pyStrip (s : String) : String :=
  String.mk (((s.toList.dropWhile isPySpace).reverse.dropWhile isPySpace).reverse)

/-- The cache key of `ResearchCache._hash_query` (`src/tools/cache.py`,
lines 70-73):

    key = f"{query.lower().strip()}:{provider}"
    return hashlib.sha256(key.encode()).hexdigest()[:32]

The embedding keeps the pre-hash key: the truncated SHA-256 digest is
applied identically on every read and write, so the cache's observable
behaviour is preserved up to digest collisions, which the spec itself
declares cryptographically negligible. -/
def hashQueryKey (query provider : String) : String :=
  pyStrip (pyLower query) ++ ":" ++ provider

/-- One row of the `search_cache` SQLite table in `src/tools/cache.py`,
keyed by `query_hash` (the primary key).  Timestamps are abstract integers
in hours, matching `ttl_hours`. -/
structure CacheEntry where
  query : String
  provider : String
  results : List Source
  created_at : Int
  expires_at : Int
deriving DecidableEq

/-- The `search_cache` table: a finite map from `query_hash` to its row
(`query_hash` is the primary key, so at most one row per key; represented
as an association list read through `find?`). -/
abbrev CacheState := List (String × CacheEntry)

/-- Embedding of `ResearchCache.get_cached_results` (`src/tools/cache.py`,
lines 75-107): look the key up; a fresh row yields its stored results, an
expired row is deleted by the read that discovers it (lazy expiry), a
missing row yields nothing.  Returns the value and the updated table. -/
def getCachedResults (c : CacheState) (query provider : String) (now : Int) :
    Option (List Source) × CacheState :=
  let h := hashQueryKey query provider
  match c.find? (fun kv => kv.1 == h) with
  | none => (none, c)
  | some kv =>
    if now < kv.2.expires_at then
      (some kv.2.results, c)
    else
      (none, c.filter (fun kv2 => kv2.1 != h))

/-- Embedding of `ResearchCache.cache_results` (`src/tools/cache.py`,
lines 109-135): `INSERT OR REPLACE` of the row for the derived key, with
`expires_at = now + ttl_hours`. -/
def cacheResults (c : CacheState) (query provider : String)
    (results : List Source) (now ttl_hours : Int) : CacheState :=
  let h := hashQueryKey query provider
  (h, { query := query, provider := provider, results := results,
        created_at := now, expires_at := now + ttl_hours })
    :: c.filter (fun kv => kv.1 != h)

/-- An assessment the LLM marks `sufficient` even though its score is below
threshold: a concrete input separating the code from claim C1. -/
def assessSufficientLowScore : QualityAssessment :=
  { overall_score := 5
    completeness := 5
    source_diversity := 5
    fact_consistency := 5
    strengths := []
    gaps := ["missing recent data"]
    suggestions := ["search recent data"]
    sufficient := true }

/-- A provider whose every call raises a malformed-input error. -/
def malformedOracle : Nat → Except SearchError (List Source) :=
  fun _ => Except.error SearchError.malformedInput

/-- A two-provider oracle: provider "a" always succeeds with one source,
provider "b" always raises. -/
def mixedOracle : String → ProviderId → Nat → Except SearchError (List Source) :=
  fun q p _ =>
    if p = "a" then
      Except.ok [{ url := "https://a.example/" ++ q, title := "A", content := "c",
                   query := q, provider := "a" }]
    else
      Except.error (SearchError.providerError "boom")

/-- The sources stored in the concrete cache rows used below. -/
def exCachedSources : List Source :=
  [{ url := "https://en.wikipedia.org/wiki/Q", title := "Q", content := "cached",
     query := "q", provider := "tavily" }]

/-- A provider call that succeeds immediately. -/
def okOracle : Nat → Except SearchError (List Source) :=
  fun _ => Except.ok
    [{ url := "https://fresh.example", title := "F", content := "fresh",
       query := "q", provider := "tavily" }]

/-- A cache state holding a fresh (unexpired) entry for ("q", "tavily"). -/
def cacheWithHit : CacheState :=
  [(hashQueryKey "q" "tavily",
    { query := "q", provider := "tavily", results := exCachedSources,
      created_at := 0, expires_at := 24 })]

/-- Python slicing `s[:n]` by code points. -/
def takeChars (s : String) (n : Nat) : String :=
  String.mk (s.toList.take n)

/-- Whether the pattern is a leading segment of the text. -/
def startsWithChars : List Char → List Char → Bool
  | [], _ => true
  | _ :: _, [] => false
  | p :: ps, c :: cs => p == c && startsWithChars ps cs

/-- Replace every non-overlapping occurrence of `old` (non-empty) left to
right, as Python `str.replace` does; `fuel` bounds the recursion by the
text length. -/
def replaceChars (fuel : Nat) (s old new : List Char) : List Char :=
  match fuel, s with
  | 0, rest => rest
  | _ + 1, [] => []
  | fuel + 1, c :: cs =>
    if startsWithChars old (c :: cs) && !old.isEmpty then
      new ++ replaceChars fuel ((c :: cs).drop old.length) old new
    else
      c :: replaceChars fuel cs old new

/-- Python `str.replace(old, new)` (with non-empty `old`, the only use in
this repository). -/
def pyReplace (s old new : String) : String :=
  String.mk (replaceChars s.toList.length s.toList old.toList new.toList)

/-- Uppercase hexadecimal digit, for percent-encoding. -/
def hexDigit (n : Nat) : Char :=
  if n < 10 then Char.ofNat (48 + n) else Char.ofNat (55 + n)

/-- UTF-8 bytes of one code point. -/
def utf8Bytes (n : Nat) : List Nat :=
  if n < 128 then [n]
  else if n < 2048 then [192 + n / 64, 128 + n % 64]
  else if n < 65536 then [224 + n / 4096, 128 + n / 64 % 64, 128 + n % 64]
  else [240 + n / 262144, 128 + n / 4096 % 64, 128 + n / 64 % 64, 128 + n % 64]

/-- Python `urllib.parse.quote` with its default safe set (alphanumerics,
`_.-~`, and `/`): percent-encode every other UTF-8 byte. -/
def urlQuote (s : String) : String :=
  String.mk (s.toList.flatMap (fun c =>
    (utf8Bytes c.toNat).flatMap (fun n =>
      if (48 ≤ n && n ≤ 57) || (65 ≤ n && n ≤ 90) || (97 ≤ n && n ≤ 122)
          || n == 95 || n == 46 || n == 45 || n == 126 || n == 47 then
        [Char.ofNat n]
      else
        ['%', hexDigit (n / 16), hexDigit (n % 16)])))

/-- One entry of the `results` array of a Tavily API response; absent JSON
fields are `none` and are read with the `dict.get` defaults of the
source. -/
structure TavilyResult where
  url : Option String
  title : Option String
  content : Option String
deriving DecidableEq

/-- Embedding of `TavilySearch.search` (`src/tools/search.py`, lines
42-73).  The outcome of the network call is the `response` input (an
absent `results` key reads as the empty list, per `response.get`); the
whole body sits in a `try` whose bare `except` returns `[]`, so an
error outcome yields `[]` and nothing propagates. -/
def tavilySearch (response : Except String (List TavilyResult))
    (query : String) (now : String) : List Source :=
  match response with
  | .error _ => []
  | .ok results =>
    results.map (fun r =>
      { url := r.url.getD ""
        title := r.title.getD "Untitled"
        content := r.content.getD ""
        query := query
        provider := "tavily"
        retrieved_at := now })

/-- One page object of a Wikipedia extract response. -/
structure WikiPage where
  extract : Option String
deriving DecidableEq

/-- One Wikipedia search hit together with the pages of the follow-up
extract request the source issues for its title. -/
structure WikiSearchResult where
  title : Option String
  snippet : Option String
  pages : List WikiPage
deriving DecidableEq

/-- Embedding of `WikipediaSearch.search` (`src/tools/search.py`, lines
81-140): for each hit, strip the search-match markup from the snippet,
take the first page's extract (defaulting to the cleaned snippet) as
content, truncate it to 2000 characters if non-empty, and build the
article URL by percent-encoding the title.  The whole body sits in a
`try` whose bare `except` returns `[]`. -/
def wikipediaSearch (response : Except String (List WikiSearchResult))
    (query : String) (now : String) : List Source :=
  match response with
  | .error _ => []
  | .ok searchResults =>
    searchResults.map (fun res =>
      let title := res.title.getD ""
      let snippet := pyReplace (pyReplace (res.snippet.getD "")
        "<span class=\"searchmatch\">" "") "</span>" ""
      let content := match res.pages with
        | [] => ""
        | page :: _ => page.extract.getD snippet
      { url := "https://en.wikipedia.org/wiki/" ++ urlQuote title
        title := "Wikipedia: " ++ title
        content := if content ≠ "" then takeChars content 2000 else snippet
        query := query
        provider := "wikipedia"
        retrieved_at := now })

/-- One entry of the `organic` array of a Serper API response. -/
structure SerperResult where
  link : Option String
  title : Option String
  snippet : Option String
deriving DecidableEq

/-- Embedding of `SerperSearch.search` (`src/tools/search.py`, lines
151-186): map the first `max_results` organic hits to sources; the whole
body sits in a `try` whose bare `except` returns `[]`. -/
def serperSearch (response : Except String (List SerperResult))
    (query : String) (now : String) (max_results : Nat) : List Source :=
  match response with
  | .error _ => []
  | .ok organic =>
    (organic.take max_results).map (fun r =>
      { url := r.link.getD ""
        title := r.title.getD "Untitled"
        content := r.snippet.getD ""
        query := query
        provider := "serper"
        retrieved_at := now })

/-- Accumulator loop for Python `str.split()` with no separator: split on
whitespace runs and drop empty pieces. -/
def pySplitGo : List Char → List Char → List String
  | [], acc => if acc.isEmpty then [] else [String.mk acc.reverse]
  | c :: cs, acc =>
    if isPySpace c then
      if acc.isEmpty then pySplitGo cs []
      else String.mk acc.reverse :: pySplitGo cs []
    else
      pySplitGo cs (c :: acc)

/-- Python `str.split()` with no argument. -/
def pySplit (s : String) : List String :=
  pySplitGo s.toList []

/-- The ranking key of `_score_sources`: `quality_score +
relevance_score`. -/
def combinedScore (s : Source) : ℚ :=
  s.quality_score + s.relevance_score

/-- The per-source scoring of `ResearcherAgent._score_sources`
(`src/agents/researcher.py`, lines 91-110): relevance from the number of
distinct content words occurring among the topic's words (doubled, capped
at 10), quality from content length over 500 (capped at 5) plus a bonus of
2 for the trusted providers plus 3, capped at 10. -/
def scoreSource (topic_keywords : List String) (s : Source) : Source :=
  let content_words := (pySplit (pyLower s.content)).dedup
  let overlapCount := (content_words.filter (fun w => w ∈ topic_keywords)).length
  let relevance : ℚ := min 10 ((overlapCount : ℚ) * 2)
  let length_score : ℚ := min 5 ((s.content.length : ℚ) / 500)
  let provider_bonus : ℚ := if s.provider = "tavily" ∨ s.provider = "wikipedia" then 2 else 0
  let quality : ℚ := min 10 (length_score + provider_bonus + 3)
  { s with relevance_score := relevance, quality_score := quality }

/-- Stable descending insertion: place `s` before the first element whose
key does not exceed its own. -/
def insertDesc (key : Source → ℚ) (s : Source) : List Source → List Source
  | [] => [s]
  | t :: ts => if key t ≤ key s then s :: t :: ts else t :: insertDesc key s ts

/-- Stable sort, descending by `key`.  Python's `list.sort(key=...,
reverse=True)` is a stable descending sort, and the stable descending
ordering of a list is unique, so this insertion sort computes exactly the
list the source's sort produces. -/
def sortDescBy (key : Source → ℚ) : List Source → List Source
  | [] => []
  | s :: ss => insertDesc key s (sortDescBy key ss)

/-- Embedding of `ResearcherAgent._score_sources`: score every source
against the topic's case-folded word set, then sort descending by
combined score.  No deduplication of any kind is performed. -/
def scoreSources (sources : List Source) (topic : String) : List Source :=
  let topic_keywords := (pySplit (pyLower topic)).dedup
  sortDescBy combinedScore (sources.map (scoreSource topic_keywords))

/-- The slice of the state update returned by `ResearcherAgent.run`. -/
structure ResearcherOutput where
  sources : List Source
  research_data : List String
  status : String
deriving DecidableEq

/-- Decimal rendering with one fractional digit, standing in for Python's
`:.1f` float format (decimal rounding of the exact rational; all scores
on this path are non-negative). -/
def fmt1 (q : ℚ) : String :=
  let n : Int := Int.floor (q * 10 + 1 / 2)
  toString (n / 10) ++ "." ++ toString (n % 10)

/-- The markdown block built for one top source in `ResearcherAgent.run`
(`src/agents/researcher.py`, lines 128-134), content truncated to 1000
characters. -/
def formatSourceData (s : Source) : String :=
  "\n### " ++ s.title ++ "\n**Source:** " ++ s.url ++ "\n**Provider:** "
    ++ s.provider ++ " | **Quality:** " ++ fmt1 s.quality_score ++ "/10\n\n"
    ++ takeChars s.content 1000 ++ "\n"

/-- Embedding of the post-search part of `ResearcherAgent.run`
(`src/agents/researcher.py`, lines 112-144): score and sort the collected
sources, store them all in the state, format only `sources[:15]` into
`research_data`. -/
def researcherRun (collected : List Source) (topic : String) : ResearcherOutput :=
  let sources := scoreSources collected topic
  { sources := sources
    research_data := (sources.take 15).map formatSourceData
    status := "evaluating" }

/-- One citation line of `WriterAgent._format_citations`
(`src/agents/writer.py`, lines 57-75), with the style branches of the
source and `retrieved_at` truncated to its first 10 characters. -/
def formatCitation (style : String) (i : Nat) (s : Source) : String :=
  let retrieved := takeChars s.retrieved_at 10
  if style = "apa" then
    "[" ++ toString i ++ "] " ++ s.title ++ ". Retrieved " ++ retrieved
      ++ ", from " ++ s.url
  else if style = "mla" then
    "[" ++ toString i ++ "] \"" ++ s.title ++ ".\" Web. " ++ retrieved
      ++ ". <" ++ s.url ++ ">"
  else
    "[" ++ toString i ++ "] \"" ++ s.title ++ ",\" accessed " ++ retrieved
      ++ ", " ++ s.url

/-- The citation list built by `WriterAgent._format_citations`,
enumerated from 1 (the source joins it with newlines afterwards). -/
def formatCitationList (sources : List Source) (style : String) : List String :=
  (List.enumFrom 1 sources).map (fun iv => formatCitation style iv.1 iv.2)

/-- The citations actually included in the final report by
`WriterAgent.run`: only `sources[:15]` are passed to
`_format_citations` (`src/agents/writer.py`, line 114). -/
def writerCitations (sources : List Source) (style : String) : List String :=
  formatCitationList (sources.take 15) style

/-- Two retrieved sources sharing one URL, for the deduplication claim. -/
def dupSourceA : Source :=
  { url := "https://dup.example/page", title := "A", content := "alpha beta",
    query := "q", provider := "tavily" }

/-- Second source with the same URL as `dupSourceA`. -/
def dupSourceB : Source :=
  { url := "https://dup.example/page", title := "B", content := "alpha",
    query := "q", provider := "wikipedia" }

/-- A concrete Wikipedia hit exercising snippet cleaning, extract
fallback and URL quoting. -/
def exWikiResult : WikiSearchResult :=
  { title := some "Deep Research"
    snippet := some "<span class=\"searchmatch\">Deep</span> research overview"
    pages := [] }

/-- A concrete Tavily hit. -/
def exTavilyResult : TavilyResult :=
  { url := some "https://t.example", title := some "T", content := some "tavily content" }

/-- Characterisation of the refinement flag actually computed by the code:
it demands `sufficient = false` in addition to the score and iteration
bounds. -/
theorem needsRefinement_eq_true_iff (a : QualityAssessment) (s : ℚ)
    (rev maxRev : Nat) :
    needsRefinement a s rev maxRev = true ↔
      (a.sufficient = false ∧ a.overall_score < s ∧ rev < maxRev) := by
  simp [needsRefinement, Bool.and_eq_true, decide_eq_true_eq,
    Bool.not_eq_true', and_assoc]

/-- The routing decision is determined by the refinement flag. -/
theorem shouldContinue_eq_planner_iff (a : QualityAssessment) (s : ℚ)
    (rev maxRev : Nat) :
    shouldContinueAfterCritic (criticRun a s rev maxRev).quality_report = "planner" ↔
      needsRefinement a s rev maxRev = true := by
  by_cases h : needsRefinement a s rev maxRev = true <;>
    simp [shouldContinueAfterCritic, criticRun, h]

/-- C1 counterexample: with the default threshold 7.0, an assessment of
score 5 at iteration 0 of 2 satisfies `overall_score < 7 ∧ 0 < 2`, yet the
code routes ACCEPT (to the writer) because the LLM marked the research
`sufficient`; so the claimed iff fails at this concrete input. -/
theorem continue_iff_score_iteration_cex :
    ¬ (shouldContinueAfterCritic
          (criticRun assessSufficientLowScore min_quality_score_default 0 2).quality_report
            = "planner" ↔
        (assessSufficientLowScore.overall_score < min_quality_score_default ∧ 0 < 2)) := by
  decide

/-- C1 (amended): the routing decision is CONTINUE (edge to the planner)
iff the LLM did NOT flag the research as sufficient AND the overall score
is strictly below the quality threshold AND the iteration count is
strictly below `max_revisions`; in every other case the decision is
ACCEPT. -/
theorem continue_iff_not_sufficient_score_iteration (a : QualityAssessment)
    (s : ℚ) (rev maxRev : Nat) :
    shouldContinueAfterCritic (criticRun a s rev maxRev).quality_report = "planner" ↔
      (a.sufficient = false ∧ a.overall_score < s ∧ rev < maxRev) := by
  rw [shouldContinue_eq_planner_iff, needsRefinement_eq_true_iff]

/-- Auxiliary invariant for C2: `runRevision` never pushes the counter
past the ceiling. -/
theorem runRevision_le (s : ℚ) (maxRev : Nat) (as : List QualityAssessment) :
    ∀ rev : Nat, rev ≤ maxRev →
      runRevision s maxRev as rev ≤ maxRev := by
  induction as with
  | nil => intro rev h; simpa [runRevision] using h
  | cons a rest ih =>
    intro rev h
    by_cases hnr : needsRefinement a s rev maxRev = true
    · have hlt : rev < maxRev := ((needsRefinement_eq_true_iff a s rev maxRev).mp hnr).2.2
      simpa [runRevision, hnr] using ih (rev + 1) hlt
    · simpa [runRevision, hnr] using h

/-- C2: the gate never routes CONTINUE once the iteration counter has
reached the ceiling; the counter is incremented exactly on a CONTINUE
decision and left unchanged on ACCEPT, so starting from any value within
the ceiling it stays within the ceiling over a whole run; and with
`max_revisions = 0` the first evaluation is forced to ACCEPT regardless of
the quality score. -/
theorem iteration_ceiling (a : QualityAssessment) (s : ℚ) (rev maxRev : Nat) :
    (maxRev ≤ rev →
      shouldContinueAfterCritic (criticRun a s rev maxRev).quality_report = "writer") ∧
    (shouldContinueAfterCritic (criticRun a s rev maxRev).quality_report = "planner" →
      (criticRun a s rev maxRev).revision_number = rev + 1) ∧
    (shouldContinueAfterCritic (criticRun a s rev maxRev).quality_report = "writer" →
      (criticRun a s rev maxRev).revision_number = rev) ∧
    (∀ as : List QualityAssessment, runRevision s maxRev as 0 ≤ maxRev) ∧
    shouldContinueAfterCritic (criticRun a s 0 0).quality_report = "writer" := by
  refine ⟨?_, ?_, ?_, ?_, ?_⟩
  · intro h
    have hnr : needsRefinement a s rev maxRev = false := by
      rw [Bool.eq_false_iff]
      intro hc
      exact absurd ((needsRefinement_eq_true_iff a s rev maxRev).mp hc).2.2
        (Nat.not_lt.mpr h)
    simp [shouldContinueAfterCritic, criticRun, hnr]
  · intro h
    have hnr := (shouldContinue_eq_planner_iff a s rev maxRev).mp h
    simp [criticRun, hnr]
  · intro h
    by_cases hnr : needsRefinement a s rev maxRev = true
    · exact absurd h (by simp [shouldContinueAfterCritic, criticRun, hnr])
    · simp [criticRun, Bool.eq_false_iff.mpr hnr]
  · intro as
    exact runRevision_le s maxRev as 0 (Nat.zero_le maxRev)
  · have hnr : needsRefinement a s 0 0 = false := by
      rw [Bool.eq_false_iff]
      intro hc
      exact absurd ((needsRefinement_eq_true_iff a s 0 0).mp hc).2.2 (by omega)
    simp [shouldContinueAfterCritic, criticRun, hnr]

/-- Witness for C2 at a concrete input: at iteration 2 of 2 the decision
is forced to ACCEPT and the counter is not incremented. -/
theorem iteration_ceiling_witness :
    shouldContinueAfterCritic
        (criticRun assessSufficientLowScore min_quality_score_default 2 2).quality_report
      = "writer" ∧
    (criticRun assessSufficientLowScore min_quality_score_default 2 2).revision_number = 2 := by
  have h := iteration_ceiling assessSufficientLowScore min_quality_score_default 2 2
  have hw := h.1 (by decide)
  exact ⟨hw, h.2.2.1 hw⟩

/-- C8: an ACCEPT report always clears the gap-filling `suggestions` (the
spec's `gaps` carried to the next planning pass) to the empty list, and
they are carried forward, verbatim from the assessment, exactly when the
decision is CONTINUE. -/
theorem accept_clears_suggestions (a : QualityAssessment) (s : ℚ)
    (rev maxRev : Nat) :
    ((criticRun a s rev maxRev).status = "writing" →
      (criticRun a s rev maxRev).quality_report.suggestions = []) ∧
    ((criticRun a s rev maxRev).status = "planning" →
      (criticRun a s rev maxRev).quality_report.suggestions = a.suggestions) := by
  constructor
  · intro h
    by_cases hnr : needsRefinement a s rev maxRev = true
    · exact absurd h (by simp [criticRun, hnr])
    · simp [criticRun, Bool.eq_false_iff.mpr hnr]
  · intro h
    by_cases hnr : needsRefinement a s rev maxRev = true
    · simp [criticRun, hnr]
    · exact absurd h (by simp [criticRun, Bool.eq_false_iff.mpr hnr])

/-- Witness for C8 at a concrete input: the report produced for a
sufficient assessment (decision ACCEPT) has empty suggestions. -/
theorem accept_clears_suggestions_witness :
    (criticRun assessSufficientLowScore min_quality_score_default 0 2).quality_report.suggestions
      = [] := by
  exact (accept_clears_suggestions assessSufficientLowScore
    min_quality_score_default 0 2).1 (by decide)

/-- The retry loop never makes more provider calls than it has loop
iterations available. -/
theorem searchQueryGo_attempts_le (oracle : Nat → Except SearchError (List Source))
    (d : ℚ) :
    ∀ remaining attempt, (searchQueryGo oracle d attempt remaining).attempts ≤ remaining := by
  intro remaining
  induction remaining with
  | zero => intro attempt; simp [searchQueryGo]
  | succ r ih =>
    intro attempt
    cases h : oracle attempt with
    | ok v => simp [searchQueryGo, h]
    | error e =>
      by_cases hr : r > 0
      · simpa [searchQueryGo, h, hr] using Nat.succ_le_succ (ih (attempt + 1))
      · simp [searchQueryGo, h, hr]

/-- Full behaviour of the retry loop when every available attempt fails:
no results, every iteration consumed, and the linear-backoff sleeps
`retry_delay * i` for `i = attempt+1, attempt+2, …` between consecutive
attempts. -/
theorem searchQueryGo_all_fail (oracle : Nat → Except SearchError (List Source))
    (d : ℚ) :
    ∀ remaining attempt,
      (∀ i, attempt ≤ i → i < attempt + remaining → isErrorResponse (oracle i) = true) →
      searchQueryGo oracle d attempt remaining
        = { results := []
            attempts := remaining
            sleeps := (List.range (remaining - 1)).map
              (fun i : Nat => d * ((attempt : ℚ) + (i : ℚ) + 1)) } := by
  intro remaining
  induction remaining with
  | zero => intro attempt _; simp [searchQueryGo]
  | succ r ih =>
    intro attempt hfail
    have herr : isErrorResponse (oracle attempt) = true :=
      hfail attempt (Nat.le_refl _) (by omega)
    cases h : oracle attempt with
    | ok v => rw [h] at herr; simp [isErrorResponse] at herr
    | error e =>
      cases r with
      | zero => simp [searchQueryGo, h]
      | succ r' =>
        have hrest := ih (attempt + 1) (by intro i h1 h2; exact hfail i (by omega) (by omega))
        have hstep : searchQueryGo oracle d attempt (r' + 1 + 1)
            = { results := (searchQueryGo oracle d (attempt + 1) (r' + 1)).results
                attempts := (searchQueryGo oracle d (attempt + 1) (r' + 1)).attempts + 1
                sleeps := d * ((attempt : ℚ) + 1)
                  :: (searchQueryGo oracle d (attempt + 1) (r' + 1)).sleeps } := by
          simp [searchQueryGo, h]
        have hmap : (List.range (r' + 1)).map (fun i : Nat => d * ((attempt : ℚ) + (i : ℚ) + 1))
            = d * ((attempt : ℚ) + 1)
              :: (List.range r').map (fun i : Nat => d * (((attempt + 1 : Nat) : ℚ) + (i : ℚ) + 1)) := by
          rw [List.range_succ_eq_map, List.map_cons, List.map_map]
          congr 1
          · push_cast; ring
          · apply List.map_congr_left
            intro i _
            simp only [Function.comp]
            push_cast
            ring
        rw [hstep, hrest]
        simp only [Nat.succ_sub_one]
        rw [hmap]

/-- C5 (amended): every `(query, provider)` fetch makes at most
`retry_attempts` provider calls (default 3), with linear backoff
`retry_delay * i` awaited between attempt `i` and `i+1`; every provider
error — malformed-input errors included — is retried identically, and when
all attempts fail the fetch returns an empty result (it never raises,
being a total function). -/
theorem retry_policy (oracle : Nat → Except SearchError (List Source))
    (d : ℚ) (N : Nat) :
    (searchQuery oracle d N).attempts ≤ N ∧
    ((∀ i, i < N → isErrorResponse (oracle i) = true) →
      (searchQuery oracle d N).results = [] ∧
      (searchQuery oracle d N).attempts = N ∧
      (searchQuery oracle d N).sleeps
        = (List.range (N - 1)).map (fun i : Nat => d * ((i : ℚ) + 1))) := by
  constructor
  · exact searchQueryGo_attempts_le oracle d N 0
  · intro hfail
    have h := searchQueryGo_all_fail oracle d N 0
      (by intro i _ h2; exact hfail i (by omega))
    rw [searchQuery, h]
    refine ⟨rfl, rfl, ?_⟩
    apply List.map_congr_left
    intro i _
    push_cast
    ring

/-- C5 counterexample: with the default configuration (3 attempts, 1 s
base delay), a provider that always raises a malformed-input error is NOT
failed immediately without retrying — the code makes all 3 attempts and
sleeps twice, because its bare `except Exception` treats every error as
retryable. -/
theorem malformed_input_not_immediate_cex :
    ¬ ((searchQuery malformedOracle retry_delay_default retry_attempts_default).attempts = 1 ∧
       (searchQuery malformedOracle retry_delay_default retry_attempts_default).sleeps = []) := by
  decide

/-- Witness for C5 at a concrete input: the always-failing provider under
defaults yields no results after exactly 3 attempts. -/
theorem retry_policy_witness :
    (searchQuery malformedOracle retry_delay_default retry_attempts_default).results = [] ∧
    (searchQuery malformedOracle retry_delay_default retry_attempts_default).attempts = 3 := by
  have h := (retry_policy malformedOracle retry_delay_default retry_attempts_default).2
    (fun i _ => rfl)
  exact ⟨h.1, h.2.1⟩

/-- Folding list append from an accumulator is appending the flattening. -/
theorem foldl_append_eq_flatten {α : Type} (rs : List (List α)) :
    ∀ acc : List α, rs.foldl (fun a r => a ++ r) acc = acc ++ rs.flatten := by
  induction rs with
  | nil => intro acc; simp
  | cons r rest ih =>
    intro acc
    simp only [List.foldl_cons, List.flatten_cons]
    rw [ih (acc ++ r), List.append_assoc]

/-- The parallel executor is the in-order concatenation of the per-pair
fetch results over all (query, provider) pairs. -/
theorem executeParallelSearches_eq (providers : List ProviderId)
    (oracle : String → ProviderId → Nat → Except SearchError (List Source))
    (d : ℚ) (N : Nat) (queries : List String) :
    executeParallelSearches providers oracle d N queries
      = queries.flatMap (fun q => providers.flatMap (fun p =>
          (searchQuery (oracle q p) d N).results)) := by
  unfold executeParallelSearches
  rw [foldl_append_eq_flatten]
  rw [List.nil_append]
  induction queries with
  | nil => simp
  | cons q qs ih =>
    simp only [List.flatMap_cons, List.map_append, List.flatten_append, List.map_map]
    rw [ih]
    congr 1

/-- C6: if an arbitrary set of (query, provider) pairs (given by the
predicate `failed`) exhausts every attempt, the executor still returns
normally — it is a total function — and its output is exactly the in-order
concatenation of the contributions of the remaining pairs, each failed
pair contributing the empty list. -/
theorem partial_failure_resilience (providers : List ProviderId)
    (oracle : String → ProviderId → Nat → Except SearchError (List Source))
    (d : ℚ) (N : Nat) (queries : List String)
    (failed : String → ProviderId → Bool)
    (hfail : ∀ q p, failed q p = true →
      ∀ i, i < N → isErrorResponse (oracle q p i) = true) :
    executeParallelSearches providers oracle d N queries
      = queries.flatMap (fun q => providers.flatMap (fun p =>
          if failed q p then [] else (searchQuery (oracle q p) d N).results)) := by
  rw [executeParallelSearches_eq]
  have hfun : ∀ q p, (searchQuery (oracle q p) d N).results
      = if failed q p then [] else (searchQuery (oracle q p) d N).results := by
    intro q p
    by_cases hf : failed q p = true
    · rw [if_pos hf]
      have h := searchQueryGo_all_fail (oracle q p) d N 0
        (by intro i _ h2; exact hfail q p hf i (by omega))
      rw [searchQuery, h]
    · rw [if_neg hf]
  congr 1
  funext q
  congr 1
  funext p
  exact hfun q p

/-- Witness for C6 at a concrete input: with queries q1, q2 over providers
"a" (always succeeds) and "b" (always fails 3/3 attempts), the executor
returns exactly the two sources from "a". -/
theorem partial_failure_resilience_witness :
    executeParallelSearches ["a", "b"] mixedOracle 1 3 ["q1", "q2"]
      = [{ url := "https://a.example/q1", title := "A", content := "c",
           query := "q1", provider := "a" },
         { url := "https://a.example/q2", title := "A", content := "c",
           query := "q2", provider := "a" }] := by
  rw [partial_failure_resilience ["a", "b"] mixedOracle 1 3 ["q1", "q2"]
    (fun _ p => p = "b")
    (by intro q p hp i _
        have hb : p = "b" := by simpa using hp
        subst hb
        rfl)]
  decide

/-- C7 counterexample: the queries "Foo" and "foo" are textually
different, yet their cache keys (for a fixed provider) coincide, because
the key case-folds the query first; the same happens for queries differing
only in surrounding whitespace.  So textually-different queries CAN
collide by construction. -/
theorem different_queries_key_collision_cex :
    ("Foo" : String) ≠ "foo" ∧
    hashQueryKey "Foo" "tavily" = hashQueryKey "foo" "tavily" := by
  decide

/-- C7 (amended): for a fixed provider, two queries derive the same cache
key exactly when their case-folded, whitespace-trimmed forms coincide; in
particular queries that are still textually different after that
normalization never collide (pre-hash — SHA-256 truncation collisions are
accepted as negligible, as the spec itself states). -/
theorem hashQueryKey_eq_iff (q1 q2 p : String) :
    hashQueryKey q1 p = hashQueryKey q2 p ↔
      pyStrip (pyLower q1) = pyStrip (pyLower q2) := by
  constructor
  · intro h
    have h' : pyStrip (pyLower q1) ++ (":" ++ p) = pyStrip (pyLower q2) ++ (":" ++ p) := by
      simpa [hashQueryKey, String.append_assoc] using h
    have hd : (pyStrip (pyLower q1)).data ++ (":" ++ p).data
        = (pyStrip (pyLower q2)).data ++ (":" ++ p).data := by
      rw [← String.data_append, ← String.data_append, h']
    exact String.ext (List.append_inj_left' hd rfl)
  · intro h
    unfold hashQueryKey
    rw [h]

/-- C4 counterexample: even in a state where the cache holds a fresh entry
for the very (query, provider) pair being fetched, the researcher's fetch
path still makes a provider call — `_search_query` never consults the
cache (it does not even receive it), so a hit cannot short-circuit the
network call. -/
theorem cache_not_consulted_cex :
    ¬ ((getCachedResults cacheWithHit "q" "tavily" 0).1.isSome = true →
       (searchQuery okOracle retry_delay_default retry_attempts_default).attempts = 0) := by
  decide

/-- Any fetch with at least one attempt available makes at least one
provider call. -/
theorem searchQueryGo_attempts_pos (oracle : Nat → Except SearchError (List Source))
    (d : ℚ) (attempt r : Nat) :
    1 ≤ (searchQueryGo oracle d attempt (r + 1)).attempts := by
  cases h : oracle attempt with
  | ok v => simp [searchQueryGo, h]
  | error e => by_cases hr : r > 0 <;> simp [searchQueryGo, h, hr]

/-- C4 (amended): the repository's `ResearchCache` works as a
(query, provider)-keyed TTL store — writing results and reading them back
within the TTL window returns exactly the stored results — but the
researcher's search path never consults it: every fetch with at least one
retry attempt available makes a provider call regardless of any cache
contents (the fetch does not read the cache, and nothing on the search
path writes results back). -/
theorem cache_roundtrip_but_search_path_never_consults (c : CacheState)
    (q p : String) (r : List Source) (now ttl : Int)
    (oracle : Nat → Except SearchError (List Source)) (d : ℚ) (N : Nat)
    (httl : 0 < ttl) (hN : 0 < N) :
    (getCachedResults (cacheResults c q p r now ttl) q p now).1 = some r ∧
    1 ≤ (searchQuery oracle d N).attempts := by
  constructor
  · simp only [getCachedResults, cacheResults]
    rw [List.find?_cons_of_pos _ (by simp)]
    dsimp only
    rw [if_pos (show now < now + ttl by omega)]
  · obtain ⟨n, rfl⟩ : ∃ n, N = n + 1 := ⟨N - 1, by omega⟩
    exact searchQueryGo_attempts_pos oracle d 0 n

/-- Witness for C4 (amended) at concrete inputs: a stored row for
("q", "tavily") is returned by a read 1 hour later, and the fetch with the
default 3 attempts still calls the provider. -/
theorem cache_roundtrip_witness :
    (getCachedResults (cacheResults [] "q" "tavily" exCachedSources 0 24) "q" "tavily" 0).1
      = some exCachedSources ∧
    1 ≤ (searchQuery okOracle retry_delay_default retry_attempts_default).attempts :=
  cache_roundtrip_but_search_path_never_consults [] "q" "tavily" exCachedSources 0 24
    okOracle retry_delay_default retry_attempts_default (by decide) (by decide)

/-- Inserting into a list is a permutation of consing. -/
theorem insertDesc_perm (key : Source → ℚ) (s : Source) (l : List Source) :
    List.Perm (insertDesc key s l) (s :: l) := by
  induction l with
  | nil => exact List.Perm.refl _
  | cons t ts ih =>
    by_cases h : key t ≤ key s
    · simp [insertDesc, h]
    · simp only [insertDesc, if_neg h]
      exact List.Perm.trans (List.Perm.cons t ih) (List.Perm.swap s t ts)

/-- The stable sort permutes its input. -/
theorem sortDescBy_perm (key : Source → ℚ) (l : List Source) :
    List.Perm (sortDescBy key l) l := by
  induction l with
  | nil => exact List.Perm.refl _
  | cons s ss ih =>
    exact List.Perm.trans (insertDesc_perm key s (sortDescBy key ss)) (List.Perm.cons s ih)

/-- Insertion preserves the descending-by-key ordering. -/
theorem insertDesc_sorted (key : Source → ℚ) (s : Source) (l : List Source)
    (h : List.Sorted (fun a b => key b ≤ key a) l) :
    List.Sorted (fun a b => key b ≤ key a) (insertDesc key s l) := by
  induction l with
  | nil => simp [insertDesc]
  | cons t ts ih =>
    rw [List.sorted_cons] at h
    by_cases hc : key t ≤ key s
    · simp only [insertDesc, if_pos hc]
      rw [List.sorted_cons]
      refine ⟨?_, List.sorted_cons.mpr h⟩
      intro y hy
      rcases List.mem_cons.mp hy with rfl | hy2
      · exact hc
      · exact le_trans (h.1 y hy2) hc
    · simp only [insertDesc, if_neg hc]
      rw [List.sorted_cons]
      refine ⟨?_, ih h.2⟩
      intro y hy
      have hmem : y ∈ s :: ts := (insertDesc_perm key s ts).mem_iff.mp hy
      rcases List.mem_cons.mp hmem with rfl | hy2
      · exact le_of_lt (lt_of_not_le hc)
      · exact h.1 y hy2

/-- The stable sort produces a descending-by-key list. -/
theorem sortDescBy_sorted (key : Source → ℚ) (l : List Source) :
    List.Sorted (fun a b => key b ≤ key a) (sortDescBy key l) := by
  induction l with
  | nil => simp [sortDescBy]
  | cons s ss ih => exact insertDesc_sorted key s _ ih

/-- The ranked output of `_score_sources` is a permutation of the scored
inputs. -/
theorem scoreSources_perm (sources : List Source) (topic : String) :
    List.Perm (scoreSources sources topic)
      (sources.map (scoreSource ((pySplit (pyLower topic)).dedup))) := by
  simp only [scoreSources]
  exact sortDescBy_perm ..

/-- C3 counterexample: two retrieved sources with literally identical
(hence identically normalized) URLs BOTH appear in the sequence returned
by `_score_sources` — it never deduplicates, so the claimed
at-most-one-source-per-URL property fails at this concrete input. -/
theorem no_url_dedup_cex :
    ¬ (((scoreSources [dupSourceA, dupSourceB] "alpha").filter
          (fun s => s.url == "https://dup.example/page")).length ≤ 1) := by
  have hperm := scoreSources_perm [dupSourceA, dupSourceB] "alpha"
  have hcount := hperm.countP_eq (fun s => s.url == "https://dup.example/page")
  rw [← List.countP_eq_length_filter, hcount]
  decide

/-- C3 (amended): the aggregation step performs no URL deduplication at
all: the returned sequence is a permutation of the scored inputs — in
particular sources sharing a normalized URL all appear — merely sorted
(stably) in descending order of combined quality+relevance score. -/
theorem score_sources_no_dedup (sources : List Source) (topic : String) :
    List.Perm (scoreSources sources topic)
      (sources.map (scoreSource ((pySplit (pyLower topic)).dedup))) ∧
    (scoreSources sources topic).length = sources.length ∧
    List.Sorted (fun a b => combinedScore b ≤ combinedScore a)
      (scoreSources sources topic) := by
  refine ⟨scoreSources_perm sources topic, ?_, ?_⟩
  · rw [(scoreSources_perm sources topic).length_eq, List.length_map]
  · simp only [scoreSources]
    exact sortDescBy_sorted ..

/-- A fetch whose first provider call succeeds returns exactly that
call's value after one attempt, with no backoff sleeps. -/
theorem searchQuery_first_ok (oracle : Nat → Except SearchError (List Source))
    (r : List Source) (h : oracle 0 = Except.ok r) (d : ℚ) (N : Nat)
    (hN : 0 < N) :
    searchQuery oracle d N = { results := r, attempts := 1, sleeps := [] } := by
  obtain ⟨n, rfl⟩ : ∃ n, N = n + 1 := ⟨N - 1, by omega⟩
  simp [searchQuery, searchQueryGo, h]

/-- C9: each registered provider's `search` (Tavily, Wikipedia, Serper)
wraps its entire body in a catch-all `try/except` that returns `[]`, so no
exception ever propagates to the caller: an error outcome yields `[]`
(never a raise — the embedded searches are total), and a fetch through the
retry loop finishes on the first attempt with exactly the provider's
value, so the retry/backoff branch of `_search_query` is unreachable for
these providers. -/
theorem providers_never_raise (e : String) (q now : String) (m : Nat)
    (tr : Except String (List TavilyResult))
    (wr : Except String (List WikiSearchResult))
    (sr : Except String (List SerperResult))
    (d : ℚ) (N : Nat) (hN : 0 < N) :
    tavilySearch (Except.error e) q now = [] ∧
    wikipediaSearch (Except.error e) q now = [] ∧
    serperSearch (Except.error e) q now m = [] ∧
    searchQuery (fun _ => Except.ok (tavilySearch tr q now)) d N
      = { results := tavilySearch tr q now, attempts := 1, sleeps := [] } ∧
    searchQuery (fun _ => Except.ok (wikipediaSearch wr q now)) d N
      = { results := wikipediaSearch wr q now, attempts := 1, sleeps := [] } ∧
    searchQuery (fun _ => Except.ok (serperSearch sr q now m)) d N
      = { results := serperSearch sr q now m, attempts := 1, sleeps := [] } := by
  refine ⟨rfl, rfl, rfl, ?_, ?_, ?_⟩ <;> exact searchQuery_first_ok _ _ rfl d N hN

/-- Witness for C9 at concrete inputs: a raising Tavily call contributes
`[]`, and a concrete Wikipedia response (with search-match markup and a
space in the title) flows through the retry loop in a single attempt. -/
theorem providers_never_raise_witness :
    tavilySearch (Except.error "boom") "q" "t" = [] ∧
    searchQuery (fun _ => Except.ok (wikipediaSearch (Except.ok [exWikiResult]) "q" "t"))
        retry_delay_default retry_attempts_default
      = { results := wikipediaSearch (Except.ok [exWikiResult]) "q" "t",
          attempts := 1, sleeps := [] } := by
  have h := providers_never_raise "boom" "q" "t" 5
    (Except.ok [exTavilyResult]) (Except.ok [exWikiResult]) (Except.ok [])
    retry_delay_default retry_attempts_default (by decide)
  exact ⟨h.1, h.2.2.2.2.1⟩

/-- C10: `ResearcherAgent.run` stores every scored source in the run
state, but formats only the 15 top-ranked ones into the `research_data`
fed downstream (the stored list is sorted descending by combined score and
the formatted blocks are exactly its first 15), and `WriterAgent.run`
cites at most 15 sources in the references section. -/
theorem top15_data_and_citations (collected : List Source) (topic : String)
    (srcs : List Source) (style : String) :
    (researcherRun collected topic).sources.length = collected.length ∧
    (researcherRun collected topic).research_data
      = ((researcherRun collected topic).sources.take 15).map formatSourceData ∧
    (researcherRun collected topic).research_data.length ≤ 15 ∧
    List.Sorted (fun a b => combinedScore b ≤ combinedScore a)
      (researcherRun collected topic).sources ∧
    (writerCitations srcs style).length ≤ 15 := by
  refine ⟨?_, rfl, ?_, ?_, ?_⟩
  · show (scoreSources collected topic).length = collected.length
    rw [(scoreSources_perm collected topic).length_eq, List.length_map]
  · show (List.map formatSourceData ((scoreSources collected topic).take 15)).length ≤ 15
    rw [List.length_map, List.length_take]
    exact min_le_left ..
  · show List.Sorted _ (scoreSources collected topic)
    simp only [scoreSources]
    exact sortDescBy_sorted ..
  · show (formatCitationList (srcs.take 15) style).length ≤ 15
    rw [formatCitationList, List.length_map, List.enumFrom_length, List.length_take]
    exact min_le_left ..

end ResearchAgent
